import Mathlib

/-!
Shallow embedding of src/TimedInput.py.

The module exposes timed_input(seconds, prompt, default), which dispatches on
isWindows() to one of two implementations:

  - _unix_timed_input: prints a warning line and the prompt, then calls
    select([sys.stdin], [], [], seconds); if select reports stdin ready it
    returns inputs[0].readline().strip(), otherwise it returns default.

  - _windows_timed_input: inside a try block it prints the warning line,
    starts a one-shot Timer that sends SIGTERM to the process after the
    delay, and calls input(prompt); the SIGTERM handler raises
    _InputTimeoutError, which the except clause turns into returning
    default; a finally clause calls timer.cancel() on every exit of the
    try statement.

Interaction with the outside world (what arrives on stdin before the
deadline, and which exception, if any, unwinds the blocking read) is
modelled by explicit event parameters; everything the functions themselves
compute is translated directly from the source.
-/

/-- Python values relevant to the interface: the caller-supplied default may
be None, a string, or a non-string value, and results of a successful read
are strings. -/
inductive PyVal where
  | pyNone
  | pyStr (s : String)
  | pyInt (n : Int)
deriving DecidableEq

/-- Characters removed by the Python str.strip() method with no argument:
space, tab, newline, carriage return, vertical tab, form feed. -/
def isPySpace (c : Char) : Bool :=
  c == ' ' || c == '\t' || c == '\n' || c == '\r' ||
    c == Char.ofNat 11 || c == Char.ofNat 12

/-- Python str.strip(): remove leading and trailing whitespace characters. -/
def pyStrip (s : String) : String :=
  String.mk (((s.data.dropWhile isPySpace).reverse.dropWhile isPySpace).reverse)

/-- Python input() returns the line read from stdin with the trailing
newline removed; nothing else is stripped. -/
def chopNewline (s : String) : String :=
  if s.data.getLast? == some '\n' then String.mk s.data.dropLast else s

/-- Does the first character list occur at the head of the second? Helper
for the Python substring test. -/
def leadMatches : List Char → List Char → Bool
  | [], _ => true
  | _ :: _, [] => false
  | a :: as, b :: bs => a == b && leadMatches as bs

/-- Does the first character list occur anywhere inside the second? Helper
for the Python substring test. -/
def containsSeq (needle : List Char) : List Char → Bool
  | [] => needle.isEmpty
  | b :: bs => leadMatches needle (b :: bs) || containsSeq needle bs

/-- Python: needle in hay, the substring containment test on strings. -/
def pyInStr (needle hay : String) : Bool :=
  containsSeq needle.data hay.data

/-- TimedInput.py line 8: def isWindows(): return 'win' in sys.platform.
The sys.platform string is passed explicitly. -/
def isWindows (platform : String) : Bool :=
  pyInStr "win" platform

/-- Which of the two implementations a call to timed_input runs. -/
inductive ImplPath where
  | windowsImpl
  | unixImpl
deriving DecidableEq

/-- TimedInput.py lines 39-42: timed_input dispatches on isWindows() to
_windows_timed_input or _unix_timed_input. -/
def timedInputPath (platform : String) : ImplPath :=
  if isWindows platform then ImplPath.windowsImpl else ImplPath.unixImpl

/-- The warning text built by the format call on line 85 and line 116:
WARNING: Input times out after N seconds. -/
def warningText (seconds : Nat) : String :=
  "WARNING: Input times out after " ++ toString seconds ++ " seconds"

/-- What happens on stdin during a call on the select path: a line arrives
before the deadline, the stream is closed before any line arrives, or the
deadline passes with nothing available. -/
inductive InputEvent where
  | line (s : String)
  | eofClosed
  | timeout
deriving DecidableEq

/-- Number of ready descriptors reported by select([sys.stdin], [], [],
seconds) on line 120: stdin is readable before the deadline exactly when a
line has arrived or the stream has been closed. -/
def selectReadyCount (ev : InputEvent) : Nat :=
  match ev with
  | InputEvent.line _ => 1
  | InputEvent.eofClosed => 1
  | InputEvent.timeout => 0

/-- Result of inputs[0].readline() on line 122: the arrived line including
its terminator, or the empty string at end of file. The timeout case is
never reached, since readline is only called when select reported
readiness. -/
def readlineResult (ev : InputEvent) : String :=
  match ev with
  | InputEvent.line s => s
  | InputEvent.eofClosed => ""
  | InputEvent.timeout => ""

/-- Observable outcome of a call to _unix_timed_input: the returned value,
the timeout argument handed to select, whether a read on stdin was
attempted, and the writes made to standard output in order. -/
structure UnixResult where
  result : PyVal
  selectTimeoutArg : Nat
  readAttempted : Bool
  outWrites : List String
deriving DecidableEq

/-- TimedInput.py lines 96-124, _unix_timed_input: print the warning line,
print the prompt with no newline, flush, call select with the given
timeout; when stdin is ready return readline().strip(), otherwise return
default. -/
def unix_timed_input (seconds : Nat) (prompt : String) (default : PyVal)
    (ev : InputEvent) : UnixResult :=
  let writes := [warningText seconds ++ "\n", prompt]
  if selectReadyCount ev > 0 then
    { result := PyVal.pyStr (pyStrip (readlineResult ev)),
      selectTimeoutArg := seconds,
      readAttempted := true,
      outWrites := writes }
  else
    { result := default,
      selectTimeoutArg := seconds,
      readAttempted := false,
      outWrites := writes }

/-- What happens during the blocking input(prompt) call on the Windows
path: a line arrives, the Timer fires and the SIGTERM handler raises
_InputTimeoutError, the stream is closed so input() raises EOFError, or
some other unexpected exception unwinds the read. -/
inductive WinEvent where
  | line (s : String)
  | timeoutSignal
  | eofClosed
  | otherError
deriving DecidableEq

/-- Exceptions that can escape the try body of _windows_timed_input. -/
inductive PyExc where
  | inputTimeoutError
  | eofError
  | otherExc
deriving DecidableEq

/-- A Python call either returns a value or raises an exception. -/
inductive Outcome where
  | ret (v : PyVal)
  | exc (e : PyExc)
deriving DecidableEq

/-- TimedInput.py line 87: text = input(prompt). On success input() yields
the line with its trailing newline removed and no other stripping; the
other events surface as exceptions. -/
def inputOutcome (ev : WinEvent) : Outcome :=
  match ev with
  | WinEvent.line s => Outcome.ret (PyVal.pyStr (chopNewline s))
  | WinEvent.timeoutSignal => Outcome.exc PyExc.inputTimeoutError
  | WinEvent.eofClosed => Outcome.exc PyExc.eofError
  | WinEvent.otherError => Outcome.exc PyExc.otherExc

/-- TimedInput.py lines 89-90: the except _InputTimeoutError clause turns
that one exception into returning default; every other outcome passes
through unchanged. -/
def handleTimeoutExc (o : Outcome) (default : PyVal) : Outcome :=
  match o with
  | Outcome.exc PyExc.inputTimeoutError => Outcome.ret default
  | o => o

/-- Observable outcome of a call to _windows_timed_input: the value
returned or exception propagated, whether timer.cancel() was executed, and
the writes made to standard output in order (the warning line from the
print call, then the prompt written by input()). -/
structure WinResult where
  outcome : Outcome
  cancelCalled : Bool
  outWrites : List String
deriving DecidableEq

/-- TimedInput.py lines 60-93, _windows_timed_input: the try body prints
the warning line, starts the Timer, and calls input(prompt), which writes
the prompt before blocking; the except clause maps _InputTimeoutError to
returning default; the finally clause runs timer.cancel() on every exit of
the try statement, whether it ends by return or by a propagating
exception. -/
def windows_timed_input (seconds : Nat) (prompt : String) (default : PyVal)
    (ev : WinEvent) : WinResult :=
  { outcome := handleTimeoutExc (inputOutcome ev) default,
    cancelCalled := true,
    outWrites := [warningText seconds ++ "\n", prompt] }

/-- C1, counterexample: the claim fails on the _windows_timed_input path.
With input "  hi  \n" that path returns "  hi  " as produced by input(),
keeping the leading and trailing spaces, whereas stripping would yield
"hi"; the two strings differ. -/
theorem C1_cex :
    (windows_timed_input 5 "" PyVal.pyNone (WinEvent.line "  hi  \n")).outcome
        = Outcome.ret (PyVal.pyStr "  hi  ")
      ∧ (windows_timed_input 5 "" PyVal.pyNone (WinEvent.line "  hi  \n")).outcome
        ≠ Outcome.ret (PyVal.pyStr "hi") := by
  constructor
  · decide
  · decide

/-- C1, amended: when a line of input arrives before the deadline, the
select path returns the line with leading and trailing whitespace removed
(input "  hi  \n" yields "hi"); the _windows_timed_input path returns the
line with only the trailing line terminator removed, exactly as input()
produces it, with leading and trailing whitespace preserved. -/
theorem C1_amended_stripping (seconds : Nat) (prompt : String) (default : PyVal)
    (l : String) :
    (unix_timed_input seconds prompt default (InputEvent.line l)).result
        = PyVal.pyStr (pyStrip l)
      ∧ (windows_timed_input seconds prompt default (WinEvent.line l)).outcome
        = Outcome.ret (PyVal.pyStr (chopNewline l))
      ∧ pyStrip "  hi  \n" = "hi" := by
  refine ⟨rfl, rfl, ?_⟩
  decide

/-- C2: fails on the code. The substring test in isWindows matches "win"
inside "darwin", so on macOS, a POSIX platform where select on stdin is
available, timed_input takes the SIGTERM-timer path instead of the select
path; on "linux" it takes the select path and on "win32" the SIGTERM-timer
path as intended. -/
theorem C2_darwin_takes_windows_path :
    isWindows "darwin" = true
      ∧ timedInputPath "darwin" = ImplPath.windowsImpl
      ∧ timedInputPath "linux" = ImplPath.unixImpl
      ∧ timedInputPath "win32" = ImplPath.windowsImpl := by
  refine ⟨?_, ?_, ?_, ?_⟩ <;> decide

/-- C3: when the call times out with no input, both implementations return
the caller-supplied default exactly as given, for every default value,
including None, the empty string and non-string values. -/
theorem C3_default_returned_verbatim (seconds : Nat) (prompt : String)
    (default : PyVal) :
    (unix_timed_input seconds prompt default InputEvent.timeout).result = default
      ∧ (windows_timed_input seconds prompt default WinEvent.timeoutSignal).outcome
        = Outcome.ret default :=
  ⟨rfl, rfl⟩

/-- C4: on the select path, when select reports zero ready descriptors the
call returns the default, no read on stdin is attempted, and the call
returns normally rather than surfacing an error. -/
theorem C4_timeout_returns_default_without_read (seconds : Nat) (prompt : String)
    (default : PyVal) :
    selectReadyCount InputEvent.timeout = 0
      ∧ (unix_timed_input seconds prompt default InputEvent.timeout).result = default
      ∧ (unix_timed_input seconds prompt default InputEvent.timeout).readAttempted
        = false :=
  ⟨rfl, rfl, rfl⟩

/-- C5: on the _windows_timed_input path the finally clause runs
timer.cancel() on every exit of the try statement: after a successful
read, after the caught _InputTimeoutError, and after an uncaught
exception, EOFError included. -/
theorem C5_timer_cancelled_on_every_exit (seconds : Nat) (prompt : String)
    (default : PyVal) :
    ∀ ev : WinEvent, (windows_timed_input seconds prompt default ev).cancelCalled
      = true :=
  fun _ => rfl

/-- C6: an empty line entered before the timeout yields the empty string on
the select path, and whenever the default differs from the empty string
this result differs from the result of the timeout case. -/
theorem C6_empty_line_distinct_from_timeout (seconds : Nat) (prompt : String)
    (default : PyVal) (h : default ≠ PyVal.pyStr "") :
    (unix_timed_input seconds prompt default (InputEvent.line "\n")).result
        = PyVal.pyStr ""
      ∧ (unix_timed_input seconds prompt default (InputEvent.line "\n")).result
        ≠ (unix_timed_input seconds prompt default InputEvent.timeout).result := by
  have hstrip : pyStrip "\n" = "" := by decide
  constructor
  · show PyVal.pyStr (pyStrip "\n") = PyVal.pyStr ""
    rw [hstrip]
  · show PyVal.pyStr (pyStrip "\n") ≠ default
    rw [hstrip]
    exact fun he => h he.symm

/-- C6 witness: instantiated at default None. -/
theorem C6_witness :
    (unix_timed_input 1 "" PyVal.pyNone (InputEvent.line "\n")).result
        = PyVal.pyStr ""
      ∧ (unix_timed_input 1 "" PyVal.pyNone (InputEvent.line "\n")).result
        ≠ (unix_timed_input 1 "" PyVal.pyNone InputEvent.timeout).result :=
  C6_empty_line_distinct_from_timeout 1 "" PyVal.pyNone (by decide)

/-- C7: on the select path, a stream closed before any line arrives is
reported ready by select, the readline call is made and yields zero bytes,
and the call returns the empty string rather than taking the default
branch. -/
theorem C7_eof_returns_empty_string (seconds : Nat) (prompt : String)
    (default : PyVal) :
    selectReadyCount InputEvent.eofClosed > 0
      ∧ readlineResult InputEvent.eofClosed = ""
      ∧ (unix_timed_input seconds prompt default InputEvent.eofClosed).result
        = PyVal.pyStr ""
      ∧ (unix_timed_input seconds prompt default InputEvent.eofClosed).readAttempted
        = true := by
  refine ⟨by decide, rfl, ?_, rfl⟩
  show PyVal.pyStr (pyStrip "") = PyVal.pyStr ""
  rfl

/-- C8: with timeoutSeconds equal to zero the select path passes zero as
the select timeout, making the wait an immediate poll, and the result is
the stripped pending line when one is already available and the default
otherwise. -/
theorem C8_zero_timeout_immediate_poll (prompt : String) (default : PyVal)
    (ev : InputEvent) :
    (unix_timed_input 0 prompt default ev).selectTimeoutArg = 0
      ∧ (unix_timed_input 0 prompt default ev).result
        = (if selectReadyCount ev > 0
            then PyVal.pyStr (pyStrip (readlineResult ev)) else default) := by
  cases ev <;> exact ⟨rfl, rfl⟩

/-- C9: on both implementation paths the writes to standard output, before
any waiting, are exactly one warning line announcing the timeout followed
by the prompt text with no trailing newline, in that order. -/
theorem C9_warning_line_then_prompt (seconds : Nat) (prompt : String)
    (default : PyVal) (uev : InputEvent) (wev : WinEvent) :
    (unix_timed_input seconds prompt default uev).outWrites
        = [warningText seconds ++ "\n", prompt]
      ∧ (windows_timed_input seconds prompt default wev).outWrites
        = [warningText seconds ++ "\n", prompt]
      ∧ warningText seconds
        = "WARNING: Input times out after " ++ toString seconds ++ " seconds" := by
  refine ⟨?_, rfl, rfl⟩
  cases uev <;> rfl

/-- C10: on the _windows_timed_input path a stream closed before any line
makes input() raise EOFError, which is not the caught _InputTimeoutError
and so propagates to the caller instead of producing any returned value,
while the finally clause still runs timer.cancel() before the exception
escapes. -/
theorem C10_eof_propagates_on_windows_path (seconds : Nat) (prompt : String)
    (default : PyVal) :
    (windows_timed_input seconds prompt default WinEvent.eofClosed).outcome
        = Outcome.exc PyExc.eofError
      ∧ (∀ v : PyVal,
          (windows_timed_input seconds prompt default WinEvent.eofClosed).outcome
            ≠ Outcome.ret v)
      ∧ (windows_timed_input seconds prompt default WinEvent.eofClosed).cancelCalled
        = true := by
  refine ⟨rfl, ?_, rfl⟩
  intro v h
  exact Outcome.noConfusion h
